import Mathlib

/-!
# Verification of the BERA-AI intent-classification and response-composition pipeline

This file gives a shallow embedding of the decision logic of the BERA-AI
repository (an Express HTTP server whose `/api/bera-ai` endpoint classifies a
free-text message with ordered regular-expression rules, extracts parameters,
dispatches to at most one remote capability client, and composes a typed JSON
response, optionally attaching synthesized speech).

The repository contains several server variants.  We embed the ones the
claims refer to:

* `server.js`, first variant (`classifyServerA`): classifier with an inline
  identity rule.
* `src/unnamed/part_000`, first variant ("V1", GiftedTech chat backend):
  `checkIdentityQuestions` guard + `classifyV1` + the `/api/bera-ai`
  orchestrator (`endpointV1`).
* `src/unnamed/part_000`, auto-download variant ("V2"):
  `classifyV2`, `extractSongRequestV2`, `getDownloadFormat`, `endpointV2`.
* `src/unnamed/part_000`, last variant ("V5", pattern-based song extraction):
  `classifyV5`, `extractSongRequestV5`, `endpointV5`.

JavaScript regular expressions used by the code are all of the shape
`tok₁.*tok₂.*…` possibly under a top-level alternation, where each `tokᵢ` is a
literal (or an alternation of literals).  `RegExp.test` is unanchored, and `.`
does not match a newline, so a match exists iff the token groups occur in order
with newline-free gaps between them, starting anywhere in the string.  The
matcher `altsTest` below implements exactly that semantics.
-/

/-- ASCII whitespace, the relevant fragment of JavaScript `\s` and of the
characters removed by `String.prototype.trim`. -/
def isWs (c : Char) : Bool :=
  c == ' ' || c == '\t' || c == '\n' || c == '\r'

/-- Lower-case a string, modelling JavaScript `toLowerCase` on ASCII input
(tokens in the source patterns are ASCII). -/
def lowerStr (s : String) : String := String.mk (s.toList.map Char.toLower)

/-- `containsTok pat l` holds iff `pat` occurs as a contiguous substring of
`l`; this is the semantics of an unanchored single-literal regex test. -/
def containsTok (pat : List Char) : List Char → Bool
  | [] => pat.isPrefixOf []
  | c :: rest => pat.isPrefixOf (c :: rest) || containsTok pat rest

/-- Substring containment on strings. -/
def containsSub (s pat : String) : Bool := containsTok pat.toList s.toList

/-- One scanning step of the regex matcher: look for a token of the
alternation group `g` at successive positions of the input, and run the
continuation `k` on the remainder after the token.  When `crossNl` is false
(a gap produced by `.*` between groups), the scan may not move past a
newline; when it is true (the unanchored search for the start of the whole
match) it may. -/
def scanTok (g : List String) (k : List Char → Bool) (crossNl : Bool) :
    List Char → Bool
  | [] => false
  | c :: rest =>
    (g.any fun t => t.toList.isPrefixOf (c :: rest) &&
      k ((c :: rest).drop t.toList.length)) ||
    ((crossNl || c != '\n') && scanTok g k crossNl rest)

/-- Match the remaining groups of a sequence, each preceded by a `.*` gap
(which may not cross a newline). -/
def seqTail : List (List String) → List Char → Bool
  | [], _ => true
  | g :: gs, l => scanTok g (fun l2 => seqTail gs l2) false l

/-- Match a full sequence of groups `g₁.*g₂.*…` anywhere in the input
(unanchored: the leading scan may cross newlines). -/
def seqHead (groups : List (List String)) (l : List Char) : Bool :=
  match groups with
  | [] => true
  | g :: gs => scanTok g (fun l2 => seqTail gs l2) true l

/-- `RegExp.test` for a top-level alternation of token-group sequences. -/
def altsTest (alts : List (List (List String))) (l : List Char) : Bool :=
  alts.any fun groups => seqHead groups l

/-- Test an alternation of sequences against a string, case-insensitively
(every pattern in the source is either `/…/i`, or case-sensitive but applied
to the already lower-cased text with lower-case tokens, so lower-casing the
input is faithful in both cases). -/
def rxTest (alts : List (List (List String))) (s : String) : Bool :=
  altsTest alts (lowerStr s).toList

/-! ## Intent classifiers -/

/-- The identity patterns of `checkIdentityQuestions` in the V1 variant of
`part_000` (lines 389–406). -/
def identityPatternsV1 : List (List (List String)) :=
  [ [["who"], ["created"], ["bera"], ["ai"]],
    [["who"], ["owns"], ["bera"], ["ai"]],
    [["who"], ["developed"], ["bera"], ["ai"]],
    [["who"], ["made"], ["you"]],
    [["who"], ["is"], ["behind"], ["bera"]],
    [["who"], ["is"], ["your"], ["creator"]],
    [["who"], ["is"], ["your"], ["owner"]],
    [["who"], ["is"], ["your"], ["developer"]],
    [["did"], ["giftedtech"], ["make"], ["you"]],
    [["are"], ["you"], ["from"], ["giftedtech"]],
    [["who"], ["built"], ["you"]],
    [["who"], ["programmed"], ["you"]] ]

/-- The V1 identity guard (`part_000` lines 389–406): true iff some identity
pattern matches the message. -/
def checkIdentityQuestions (message : String) : Bool :=
  rxTest identityPatternsV1 message

/-- The inline identity rule of `IntentClassifier.classify` in `server.js`
(line 253) and in the V2/V5 variants of `part_000` (lines 1093, 3615):
`/(who.*created.*bera|who.*owns.*bera|who.*made.*you|who.*is.*your.*creator)/i`. -/
def identityPatternsA : List (List (List String)) :=
  [ [["who"], ["created"], ["bera"]],
    [["who"], ["owns"], ["bera"]],
    [["who"], ["made"], ["you"]],
    [["who"], ["is"], ["your"], ["creator"]] ]

/-- The identity test of the `server.js` classifier. -/
def identityTestA (text : String) : Bool := rxTest identityPatternsA text

/-- `IntentClassifier.classify` of the first `server.js` variant
(lines 248–276). -/
def classifyServerA (text : String) : String :=
  let l := (lowerStr text).toList
  if identityTestA text then "identity"
  else if altsTest
      [ [["download", "convert", "get", "save"],
         ["youtube", "video", "audio", "mp3", "mp4"]] ] l ||
    altsTest [ [["yt", "youtu.be", "youtube.com"]] ] l then "download"
  else if altsTest
      [ [["what"], ["song"]], [["identify"], ["song"]], [["shazam"]],
        [["recognize"], ["music"]], [["name"], ["this"], ["track"]] ] l then
    "music_recognition"
  else if altsTest
      [ [["create"], ["music"]], [["make"], ["song"]],
        [["generate"], ["track"]], [["compose"], ["music"]] ] l then
    "music_generation"
  else if altsTest
      [ [["help"]], [["support"]], [["guide"]],
        [["what"], ["can"], ["you"], ["do"]] ] l then "help"
  else "general"

/-- `IntentClassifier.classify` of the V1 variant of `part_000`
(lines 93–121); no identity rule (the guard runs before classification). -/
def classifyV1 (text : String) : String :=
  let l := (lowerStr text).toList
  if altsTest
      [ [["download", "convert", "get", "save"],
         ["youtube", "video", "audio", "mp3", "mp4"]] ] l ||
    altsTest [ [["yt", "youtu.be", "youtube.com"]] ] l then "media_download"
  else if altsTest
      [ [["what"], ["song"]], [["identify"], ["song"]], [["shazam"]],
        [["recognize"], ["music"]], [["name"], ["this"], ["track"]] ] l ||
    altsTest [ [["upload"], ["audio"]], [["record"], ["song"]] ] l then
    "music_recognition"
  else if altsTest
      [ [["create"], ["music"]], [["make"], ["song"]],
        [["generate"], ["track"]], [["compose"], ["music"]],
        [["new"], ["song"]] ] l then "music_generation"
  else if altsTest
      [ [["help"]], [["support"]], [["guide"]], [["how"], ["to"]],
        [["what"], ["can"], ["you"], ["do"]] ] l then "help_request"
  else "general_conversation"

/-- `IntentClassifier.classify` of the auto-download variant of `part_000`
(lines 1088–1125). -/
def classifyV2 (text : String) : String :=
  let l := (lowerStr text).toList
  if identityTestA text then "identity"
  else if altsTest
      [ [["download", "get", "fetch", "find"],
         ["song", "music", "track", "audio", "mp3", "by"]] ] l ||
    altsTest
      [ [["can you"], ["download"], ["song", "music"]],
        [["please"], ["download"], ["song", "music"]],
        [["i want"], ["download"], ["song", "music"]] ] l then "song_download"
  else if altsTest
      [ [["download", "get", "save"], ["video", "mp4", "visual"]] ] l ||
    altsTest [ [["as mp4"]], [["as video"]] ] l then "video_download"
  else if altsTest [ [["youtube.com", "youtu.be"]] ] l then "url_download"
  else if altsTest
      [ [["what"], ["song"]], [["identify"], ["song"]], [["shazam"]],
        [["recognize"], ["music"]], [["name"], ["this"], ["track"]] ] l then
    "music_recognition"
  else if altsTest
      [ [["help"]], [["support"]], [["guide"]],
        [["what"], ["can"], ["you"], ["do"]] ] l then "help"
  else "general"

/-- `IntentClassifier.classify` of the last variant of `part_000`
(lines 3610–3653). -/
def classifyV5 (text : String) : String :=
  let l := (lowerStr text).toList
  if identityTestA text then "identity"
  else if altsTest
      [ [["download", "get", "fetch", "find"],
         ["song", "music", "track", "audio", "mp3", "by"]] ] l ||
    altsTest
      [ [["can you"], ["download"], ["song", "music"]],
        [["please"], ["download"], ["song", "music"]],
        [["i want"], ["download"], ["song", "music"]] ] l then "song_download"
  else if altsTest
      [ [["download", "convert", "get", "save"],
         ["youtube", "video", "mp4"]] ] l ||
    altsTest [ [["yt", "youtu.be", "youtube.com"]] ] l then "video_download"
  else if altsTest
      [ [["what"], ["song"]], [["identify"], ["song"]], [["shazam"]],
        [["recognize"], ["music"]], [["name"], ["this"], ["track"]] ] l ||
    altsTest [ [["upload"], ["audio"]], [["record"], ["song"]] ] l then
    "music_recognition"
  else if altsTest
      [ [["voice"], ["message"]], [["recorded"], ["audio"]],
        [["audio"], ["message"]] ] l then "voice_message"
  else if altsTest
      [ [["create"], ["music"]], [["make"], ["song"]],
        [["generate"], ["track"]], [["compose"], ["music"]] ] l then
    "music_generation"
  else if altsTest
      [ [["help"]], [["support"]], [["guide"]],
        [["what"], ["can"], ["you"], ["do"]] ] l then "help"
  else "general"

/-! ## Parameter extractors -/

/-- Strip leading and trailing whitespace, modelling `String.prototype.trim`. -/
def trimList (l : List Char) : List Char :=
  ((l.dropWhile isWs).reverse.dropWhile isWs).reverse

/-- `trim` on strings. -/
def trimStr (s : String) : String := String.mk (trimList s.toList)

/-- Case-insensitive literal-prefix test (patterns are stored lower-case,
input keeps its original case). -/
def ciPrefix : List Char → List Char → Bool
  | [], _ => true
  | _ :: _, [] => false
  | a :: as, b :: bs => (a == Char.toLower b) && ciPrefix as bs

/-- One pass of `String.prototype.replace` with a global, case-insensitive
alternation of literal patterns and an empty replacement: scan left to right,
at each position delete the first listed pattern that matches (JavaScript
alternation prefers the leftmost alternative), otherwise keep the character.
`fuel` bounds recursion; each step consumes at least one character, so
`l.length` fuel is enough. -/
def stripLoop (pats : List String) : Nat → List Char → List Char
  | 0, l => l
  | _ + 1, [] => []
  | fuel + 1, c :: rest =>
    match pats.find? (fun t => ciPrefix t.toList (c :: rest)) with
    | some t => stripLoop pats fuel ((c :: rest).drop t.toList.length)
    | none => c :: stripLoop pats fuel rest

/-- `text.replace(/p₁|p₂|…/gi, '')` for literal alternatives. -/
def jsStripAll (pats : List String) (s : String) : String :=
  String.mk (stripLoop pats s.toList.length s.toList)

/-- The double-quote and single-quote characters (built with `Char.ofNat` to
keep the source free of quote characters inside literals). -/
def quoteChars : List Char := [Char.ofNat 34, Char.ofNat 39]

/-- The stop-word alternation of `IntentClassifier.extractSongRequest` in the
auto-download variant (`part_000` line 1131), in source order. -/
def stopWordsV2 : List String :=
  ["download", "get", "fetch", "find", "song", "music", "track", "audio",
   "please", "can you", "could you"]

/-- `IntentClassifier.extractSongRequest` of the auto-download variant
(`part_000` lines 1127–1138): strip stop-words, then format phrases, then
quotes, trimming after each pass; an empty result is `null` (here `none`). -/
def extractSongRequestV2 (text : String) : Option String :=
  let s1 := trimStr (jsStripAll stopWordsV2 text)
  let s2 := trimStr (jsStripAll ["as mp3", "as mp4", "as video"] s1)
  let s3 := trimStr (String.mk (s2.toList.filter (fun c => !quoteChars.contains c)))
  if s3.isEmpty then none else some s3

/-- `IntentClassifier.getDownloadFormat` of the auto-download variant
(`part_000` lines 1140–1150): MP4 only for an explicit video token with no
audio token, MP3 otherwise. -/
def getDownloadFormat (text : String) : String :=
  let l := (lowerStr text).toList
  if altsTest [ [["mp4", "video", "visual"]] ] l &&
      !(altsTest [ [["mp3", "audio"]] ] l) then "MP4"
  else "MP3"

/-- Leftmost match of `/(https?:\/\/[^\s]+)/`: scan for a literal
`http://` or `https://` followed by at least one non-whitespace character,
and take the maximal non-whitespace run. -/
def urlScan : List Char → Option String
  | [] => none
  | c :: rest =>
    if "https://".toList.isPrefixOf (c :: rest) then
      let run := ((c :: rest).drop 8).takeWhile (fun ch => !isWs ch)
      if run.isEmpty then urlScan rest
      else some (String.mk ("https://".toList ++ run))
    else if "http://".toList.isPrefixOf (c :: rest) then
      let run := ((c :: rest).drop 7).takeWhile (fun ch => !isWs ch)
      if run.isEmpty then urlScan rest
      else some (String.mk ("http://".toList ++ run))
    else urlScan rest

/-- `message.match(/(https?:\/\/[^\s]+)/)`, yielding the matched URL. -/
def extractUrl (msg : String) : Option String := urlScan msg.toList

/-! ### Pattern-based song extraction (V5 variant)

`extractSongRequest` of the last `part_000` variant (lines 3655–3671) tries
four regexes of the shape

`kw \s+ (optional words, each "w\s+") ["']? ( [^"'.?!]+ (by\s+[^"'.?!]+)? ) ["']?`

in order and returns the trimmed first capture group of the first that
matches.  Since `b` and `y` are not excluded from the capture class, the
greedy `[^"'.?!]+` already absorbs any `by …` continuation, so the capture is
the maximal run of non-`"'.?!` characters; the optional `(?:by\s+…)?` and the
trailing quote never change it.  The optional words backtrack greedily
(consume first, give back only if the capture would otherwise be empty); a
quote character can never start a capture, so giving back the optional quote
never helps and it is consumed deterministically when present. -/

/-- Characters excluded from the V5 capture class `[^"'.?!]`. -/
def exclCap : List Char := quoteChars ++ ['.', '?', '!']

/-- Consume one-or-more whitespace greedily (the `\s+` after a keyword or an
optional word). -/
def dropWs1 : List Char → Option (List Char)
  | [] => none
  | c :: rest => if isWs c then some (rest.dropWhile isWs) else none

/-- Try to consume an optional word followed by `\s+`. -/
def consumeWordWs (w : String) (l : List Char) : Option (List Char) :=
  if ciPrefix w.toList l then dropWs1 (l.drop w.toList.length) else none

/-- All remainders reachable by consuming a greedy subset of the optional
words, in JavaScript backtracking order (consume-first; the rightmost
optional group gives back first). -/
def optionRests (opts : List String) (l : List Char) : List (List Char) :=
  match opts with
  | [] => [l]
  | w :: ws =>
    (match consumeWordWs w l with
     | some l2 => optionRests ws l2
     | none => []) ++ optionRests ws l

/-- Capture group at a remainder: skip one optional quote, then take the
maximal nonempty run of non-excluded characters; the result is trimmed
(`match[1].trim()` in the source). -/
def captureFrom (l : List Char) : Option String :=
  let l2 := match l with
    | c :: r => if quoteChars.contains c then r else l
    | [] => l
  let cap := l2.takeWhile (fun c => !exclCap.contains c)
  if cap.isEmpty then none else some (String.mk (trimList cap))

/-- Try one keyword alternative at the current position: keyword, `\s+`,
then the optional words with backtracking, then the capture. -/
def tryKwAt (kw : String) (opts : List String) (l : List Char) : Option String :=
  if ciPrefix kw.toList l then
    match dropWs1 (l.drop kw.toList.length) with
    | some l2 => (optionRests opts l2).firstM captureFrom
    | none => none
  else none

/-- Scan the input left to right for the first position where some keyword
alternative yields a capture. -/
def scanPat (kws : List String) (opts : List String) : List Char → Option String
  | [] => none
  | c :: rest =>
    match (kws.firstM fun kw => tryKwAt kw opts (c :: rest)) with
    | some s => some s
    | none => scanPat kws opts rest

/-- The four extraction patterns of the V5 `extractSongRequest`
(`part_000` lines 3656–3661), as keyword alternatives plus optional words. -/
def songPatternsV5 : List (List String × List String) :=
  [ (["download"], ["the", "song"]),
    (["get"], ["me", "the", "song"]),
    (["can you download"], ["the", "song"]),
    (["i want to download", "i want the song"], []) ]

/-- `IntentClassifier.extractSongRequest` of the V5 variant
(`part_000` lines 3655–3671). -/
def extractSongRequestV5 (text : String) : Option String :=
  songPatternsV5.firstM fun p => scanPat p.1 p.2 text.toList

/-- JavaScript truthiness of the extraction result: `null` and the empty
string are falsy (`if (songRequest)` in the handlers). -/
def truthy : Option String → Bool
  | none => false
  | some s => !s.isEmpty

/-! ## Response bodies, capability tracking, and service wrappers -/

/-- A composed response body: its intent-derived `type`, the human-readable
`message`, the remaining intent-specific fields (rendered as string pairs;
array-valued fields are rendered as single joined strings), and the optional
voice attachment (`voice_audio`/`voice_format`, or `voice` in the `server.js`
variant — isomorphic: audio plus mime format). -/
structure ResponseBody where
  type : String
  message : String
  extra : List (String × String) := []
  voiceFields : Option (String × String) := none
deriving DecidableEq

/-- The remote capability clients a request handler can invoke. -/
inductive Capability where
  | chat
  | search
  | download
  | tts
deriving DecidableEq

/-- Outcome of one `/api/bera-ai` request: either the input-error JSON (sent
before any classification or outbound call), or a success envelope
(`success: true`) holding the composed body together with the list of
capability clients that were invoked while handling the request. -/
inductive PipeOut where
  | err (errorMsg : String)
  | ok (body : ResponseBody) (called : List Capability)
deriving DecidableEq

/-- Whether the request produced a success envelope. -/
def PipeOut.isOk : PipeOut → Bool
  | .err _ => false
  | .ok _ _ => true

/-- The composed body, if any. -/
def PipeOut.bodyOut : PipeOut → Option ResponseBody
  | .err _ => none
  | .ok b _ => some b

/-- The `type` field of the composed body (empty on the error path). -/
def PipeOut.bodyType : PipeOut → String
  | .err _ => ""
  | .ok b _ => b.type

/-- The `message` field of the composed body (empty on the error path). -/
def PipeOut.bodyMessage : PipeOut → String
  | .err _ => ""
  | .ok b _ => b.message

/-- The capability clients invoked while handling the request. -/
def PipeOut.calledList : PipeOut → List Capability
  | .err _ => []
  | .ok _ c => c

/-- One independent `Math.random()` draw per random choice a handler makes
(genre, mood, tempo, fallback sentence), abstracted as natural numbers. -/
structure RandSrc where
  g : Nat
  m : Nat
  t : Nat
  f : Nat
deriving DecidableEq

/-- `list[Math.floor(Math.random() * list.length)]`: an arbitrary draw `r`
reduced modulo the list length. -/
def pick (l : List String) (r : Nat) : String := l.getD (r % l.length) ""

/-- A single-quote character as a string (kept out of literals). -/
def apoS : String := String.singleton (Char.ofNat 39)

/-- Voice attachment (`server.js` lines 402–411, `part_000` lines 559–566):
when the text-to-speech result is successful (`some (audio, format)`), add
only the voice fields; on failure add nothing.  All other fields of the body
are untouched. -/
def attachVoice (r : ResponseBody) (v : Option (String × String)) : ResponseBody :=
  match v with
  | some p => { r with voiceFields := some p }
  | none => r

/-- Search-service outcome for the V2 `YouTubeSearchService.searchSong`
(`part_000` lines 900–950): the API returned videos, the inner fallback ran
(no videos or inner error: a results-page URL is returned with success), or
the outer catch ran (failure). -/
inductive SearchOutcomeV2 where
  | apiVideos (title videoId : String)
  | fallback
  | serviceError
deriving DecidableEq

/-- Uniform search result shape: success flag, title, optional URL. -/
structure SearchResult where
  success : Bool
  title : String
  url : Option String
deriving DecidableEq

/-- `YouTubeSearchService.searchSong` of the auto-download variant
(`part_000` lines 900–950).  `encodeURIComponent` applied to the query in the
source only changes the URL text and is omitted. -/
def searchSongV2 (q : String) : SearchOutcomeV2 → SearchResult
  | .apiVideos t vid => ⟨true, t, some ("https://www.youtube.com/watch?v=" ++ vid)⟩
  | .fallback => ⟨true, q, some ("https://www.youtube.com/results?search_query=" ++ q)⟩
  | .serviceError => ⟨false, "", none⟩

/-- Search-service outcome for the V5 `YouTubeSearchService.searchSong`
(`part_000` lines 3286–3331): videos returned, empty result, or HTTP error —
note both the empty case and the catch return `success: true` with a
results-page URL. -/
inductive SearchOutcomeV5 where
  | apiVideos (title videoId : String)
  | noVideos
  | httpError
deriving DecidableEq

/-- `YouTubeSearchService.searchSong` of the V5 variant
(`part_000` lines 3286–3331). -/
def searchSongV5 (q : String) : SearchOutcomeV5 → SearchResult
  | .apiVideos t vid => ⟨true, t, some ("https://www.youtube.com/watch?v=" ++ vid)⟩
  | .noVideos => ⟨true, q, some ("https://www.youtube.com/results?search_query=" ++ q)⟩
  | .httpError => ⟨true, q, some ("https://www.youtube.com/results?search_query=" ++ q)⟩

/-- Result of a `YouTubeDownloadService` call: success flag plus the error
message used in the failure response. -/
structure DlResult where
  success : Bool
  error : String
deriving DecidableEq

/-! ## The V1 orchestrator (`part_000` lines 409–586) -/

/-- The fixed identity/ownership message of the V1 identity branch
(`part_000` line 426). -/
def identityMsgV1 : String :=
  "Bera AI was created, developed, and is exclusively owned by Bruce Bera. GiftedTech APIs are tools I use for AI responses and media downloads, but GiftedTech is not my creator or owner. Bruce Bera is the sole creator and owner of Bera AI."

/-- The identity response body of the V1 variant (`part_000` lines 424–429). -/
def identityBodyV1 : ResponseBody :=
  { type := "identity_response"
    message := identityMsgV1
    extra := [("absolute_truth", "Bruce Bera created and owns Bera AI"),
              ("creator", "Bruce Bera")] }

/-- `isMP4` of the V1 media branch (`part_000` line 462):
`lowerText.includes('mp4') || lowerText.includes('video')`. -/
def isMP4V1 (msg : String) : Bool :=
  containsSub (lowerStr msg) "mp4" || containsSub (lowerStr msg) "video"

/-- V1 media-download response when a URL was found
(`part_000` lines 464–472). -/
def mediaUrlBodyV1 (u : String) (isMP4 : Bool) : ResponseBody :=
  { type := "media_download"
    message := "I can help you download that YouTube " ++
      (if isMP4 then "video as MP4" else "audio as MP3") ++
      ". Use the download endpoint with this URL: " ++ u
    extra := [("action", if isMP4 then "processing_mp4" else "processing_mp3"),
              ("url", u),
              ("format", if isMP4 then "mp4" else "mp3"),
              ("endpoint", if isMP4 then "/api/download/youtube-mp4"
                           else "/api/download/youtube-mp3"),
              ("creator", "Bruce Bera")] }

/-- V1 media-download clarification when no URL was found
(`part_000` lines 474–480). -/
def mediaHelpBodyV1 : ResponseBody :=
  { type := "media_download"
    message := "I can help you download media from YouTube. Please provide the specific YouTube URL and specify if you want MP3 or MP4 format."
    extra := [("example",
               "Example: " ++ apoS ++ "Download https://youtube.com/watch?v=... as MP3" ++ apoS),
              ("requires", "youtube_url, format"),
              ("creator", "Bruce Bera")] }

/-- V1 music-recognition response (`part_000` lines 485–493). -/
def recogBodyV1 : ResponseBody :=
  { type := "music_recognition"
    message := "I can identify songs for you. Please upload or record an audio sample of the song you want to recognize at the /api/music/identify endpoint."
    extra := [("requires", "audio_sample"), ("max_size", "10MB"),
              ("supported_formats", "mp3, wav, m4a, webm"),
              ("endpoint", "/api/music/identify"), ("creator", "Bruce Bera")] }

/-- Genre, mood and instrument option sets of `MusicGenerationService`
(`part_000` lines 318–320). -/
def genresList : List String :=
  ["electronic", "ambient", "cinematic", "lo-fi", "synthwave", "orchestral"]

/-- Mood options of `MusicGenerationService`. -/
def moodsList : List String :=
  ["uplifting", "melancholic", "energetic", "calm", "mysterious", "hopeful"]

/-- V1 music-generation response (`part_000` lines 496–505), with the random
genre/mood/tempo draws made explicit. -/
def musicGenBodyV1 (rnd : RandSrc) : ResponseBody :=
  { type := "music_generation"
    message := "I can help you create original music. Here are the specifications for your requested track:"
    extra := [("genre", pick genresList rnd.g),
              ("mood", pick moodsList rnd.m),
              ("tempo", toString (rnd.t % 60 + 80) ++ " BPM"),
              ("originality_notice",
               "This will be an original composition that does not imitate any existing artists or songs."),
              ("creator", "Bruce Bera")] }

/-- V1 help response (`part_000` lines 508–525). -/
def helpBodyV1 : ResponseBody :=
  { type := "help_request"
    message := "I" ++ apoS ++ "m Bera AI, created by Bruce Bera. Here" ++ apoS ++
      "s what I can help you with:"
    extra := [("capabilities",
               "Conversational assistance (powered by GiftedTech AI), YouTube media download orchestration (MP3/MP4), Music identification from audio samples, Original music generation guidance, Voice-enabled interaction"),
              ("creator", "Bruce Bera")] }

/-- V1 enhanced-conversation response when the chat client succeeded
(`part_000` lines 535–541). -/
def enhancedBodyV1 (t : String) : ResponseBody :=
  { type := "enhanced_conversation"
    message := t
    extra := [("enhancement_note", "Powered by GiftedTech GPT-4o API"),
              ("tool_used", "GiftedTech GPT-4o API"),
              ("creator", "Bruce Bera")] }

/-- The fixed fallback sentences of the V1 default branch
(`part_000` lines 545–549). -/
def generalResponsesV1 : List String :=
  ["I" ++ apoS ++ "m Bera AI, created by Bruce Bera. I can help you with media downloads, music recognition, and music generation.",
   "Hello! I" ++ apoS ++ "m Bera AI. How can I assist you today? I specialize in music and media tasks.",
   "As Bera AI, created by Bruce Bera, I" ++ apoS ++ "m here to help. You can ask me about downloading media, identifying songs, or creating music."]

/-- V1 fallback response when the chat client failed
(`part_000` lines 551–555). -/
def generalBodyV1 (rnd : RandSrc) : ResponseBody :=
  { type := "general_conversation"
    message := pick generalResponsesV1 rnd.f
    extra := [("creator", "Bruce Bera")] }

/-- The `/api/bera-ai` orchestrator of the V1 variant (`part_000` lines
409–586).  `msg?` is the request `message` field (`none` when absent);
`chatO` the chat-completion result (`some text` on success, `none` when the
client returned `null`); `voiceO` the text-to-speech result; `voiceEnabled`
the request flag; `rnd` the random draws.  The returned `PipeOut` records
the composed body and every capability client invoked.  The source attaches
voice inside the identity branch and after the `switch` for the others; both
reduce to one attachment after composing, as written here. -/
def endpointV1 (msg? : Option String) (chatO : Option String)
    (voiceO : Option (String × String)) (voiceEnabled : Bool)
    (rnd : RandSrc) : PipeOut :=
  match msg? with
  | none => .err "Message is required"
  | some msg =>
    if msg.isEmpty then .err "Message is required"
    else
      let bc : ResponseBody × List Capability :=
        if checkIdentityQuestions msg then (identityBodyV1, [])
        else
          let intent := classifyV1 msg
          if intent = "media_download" then
            ((match extractUrl msg with
              | some u => mediaUrlBodyV1 u (isMP4V1 msg)
              | none => mediaHelpBodyV1), [])
          else if intent = "music_recognition" then (recogBodyV1, [])
          else if intent = "music_generation" then (musicGenBodyV1 rnd, [])
          else if intent = "help_request" then (helpBodyV1, [])
          else ((match chatO with
                 | some t => enhancedBodyV1 t
                 | none => generalBodyV1 rnd), [Capability.chat])
      if voiceEnabled then .ok (attachVoice bc.1 voiceO) (bc.2 ++ [Capability.tts])
      else .ok bc.1 bc.2

/-! ## The V2 (auto-download) orchestrator (`part_000` lines 1156–1358) -/

/-- V2 auto-download success response (`part_000` lines 1194–1206). -/
def autoDlBodyV2 (title fmt : String) : ResponseBody :=
  { type := "auto_download"
    message := "✅ Found \"" ++ title ++ "\" and started " ++ fmt ++ " download."
    extra := [("song", title), ("format", fmt), ("creator", "Bruce Bera")] }

/-- V2 response when the download call failed (`part_000` lines 1208–1220). -/
def dlFailedBodyV2 (title err : String) : ResponseBody :=
  { type := "download_failed"
    message := "Found \"" ++ title ++ "\" but download failed: " ++ err
    extra := [("song", title),
              ("note", "Try the direct download endpoint with this URL"),
              ("creator", "Bruce Bera")] }

/-- V2 response when the search failed (`part_000` lines 1222–1233). -/
def songNotFoundBodyV2 (q : String) : ResponseBody :=
  { type := "song_not_found"
    message := "Could not find \"" ++ q ++ "\" on YouTube. Try a different search term."
    extra := [("creator", "Bruce Bera")] }

/-- V2 response when a video download is ready (`part_000` lines 1245–1258). -/
def videoReadyBodyV2 (title : String) : ResponseBody :=
  { type := "video_download_ready"
    message := "Found \"" ++ title ++ "\" - ready for MP4 download."
    extra := [("song", title), ("format", "MP4"),
              ("endpoint", "/api/download/youtube-mp4"),
              ("creator", "Bruce Bera")] }

/-- V2 response for a URL download request (`part_000` lines 1270–1282). -/
def urlReadyBodyV2 (u fmt : String) : ResponseBody :=
  { type := "url_download_ready"
    message := "Ready to download from URL as " ++ fmt ++ "."
    extra := [("url", u), ("format", fmt),
              ("endpoint", if fmt = "MP4" then "/api/download/youtube-mp4"
                           else "/api/download/youtube-mp3"),
              ("creator", "Bruce Bera")] }

/-- The fixed identity message of the V2 and V5 identity branches
(`part_000` lines 1292 and 3735). -/
def identityMsgShort : String :=
  "Bera AI was created, developed, and is exclusively owned by Bruce Bera. Third-party services are tools I use, but Bruce Bera is my sole creator and owner."

/-- The identity response body of the V2/V5 variants. -/
def identityBodyShort : ResponseBody :=
  { type := "identity"
    message := identityMsgShort
    extra := [("creator", "Bruce Bera")] }

/-- V2 music-recognition response (`part_000` lines 1302–1312). -/
def recogBodyV2 : ResponseBody :=
  { type := "music_recognition"
    message := "Record or upload an audio sample and I will identify the song for you."
    extra := [("endpoint", "/api/music/identify"), ("creator", "Bruce Bera")] }

/-- V2 help response (`part_000` lines 1317–1333). -/
def helpBodyV2 : ResponseBody :=
  { type := "help"
    message := "I am Bera AI, created by Bruce Bera. I can help with:"
    extra := [("capabilities",
               "Download songs by name - AUTO MP3, Download videos by name, Identify songs from audio, Download YouTube videos by URL, AI Conversations"),
              ("creator", "Bruce Bera")] }

/-- Chat response of the V2/V5 general branch: the chat text when the client
succeeded, the fixed default when it returned `null`
(`part_000` lines 1337–1348 and 3856–3862). -/
def aiBody (chatO : Option String) : ResponseBody :=
  { type := "ai_response"
    message := chatO.getD "I am Bera AI, created by Bruce Bera. How can I help you?"
    extra := [("ai_provider", "GiftedTech GPT-4o"), ("creator", "Bruce Bera")] }

/-- General-conversation tail of the V2 endpoint, carrying any capability
calls already made on a fallen-through path. -/
def endGeneralV2 (chatO : Option String) (pre : List Capability) : PipeOut :=
  .ok (aiBody chatO) (pre ++ [Capability.chat])

/-- The `/api/bera-ai` orchestrator of the auto-download variant (`part_000`
lines 1156–1358).  The source is a chain of `if (intent === …) { … return }`
blocks: a `song_download` message whose extraction is falsy falls through
all remaining intent checks into the general-conversation call, as does a
`video_download` message after a failed search (with the search already
made) and a `url_download` message without a URL. -/
def endpointV2 (msg? : Option String) (sO : SearchOutcomeV2) (dl : DlResult)
    (chatO : Option String) : PipeOut :=
  match msg? with
  | none => .err "Message is required"
  | some msg =>
    if msg.isEmpty then .err "Message is required"
    else
      let intent := classifyV2 msg
      if intent = "song_download" && truthy (extractSongRequestV2 msg) then
        let q := (extractSongRequestV2 msg).getD ""
        let sr := searchSongV2 q sO
        if sr.success && sr.url.isSome then
          let fmt := getDownloadFormat msg
          if dl.success then
            .ok (autoDlBodyV2 sr.title fmt) [Capability.search, Capability.download]
          else
            .ok (dlFailedBodyV2 sr.title dl.error) [Capability.search, Capability.download]
        else .ok (songNotFoundBodyV2 q) [Capability.search]
      else if intent = "video_download" && truthy (extractSongRequestV2 msg) then
        let q := (extractSongRequestV2 msg).getD ""
        let sr := searchSongV2 q sO
        if sr.success && sr.url.isSome then
          .ok (videoReadyBodyV2 sr.title) [Capability.search]
        else endGeneralV2 chatO [Capability.search]
      else if intent = "url_download" then
        match extractUrl msg with
        | some u =>
          .ok (urlReadyBodyV2 u
                (if containsSub (lowerStr msg) "mp4" then "MP4" else "MP3")) []
        | none => endGeneralV2 chatO []
      else if intent = "identity" then .ok identityBodyShort []
      else if intent = "music_recognition" then .ok recogBodyV2 []
      else if intent = "help" then .ok helpBodyV2 []
      else endGeneralV2 chatO []

/-! ## The V5 (pattern-extraction) orchestrator (`part_000` lines 3696–3892) -/

/-- V5 response when the searched song was found (`part_000` lines
3747–3755); the V5 search wrapper reports success on every path. -/
def songFoundBodyV5 (sr : SearchResult) : ResponseBody :=
  { type := "song_found"
    message := "I found \"" ++ sr.title ++
      "\" on YouTube. Would you like to download it as MP3 (audio) or MP4 (video)?"
    extra := [("song", sr.title), ("youtube_url", sr.url.getD ""),
              ("options", "MP3, MP4"), ("creator", "Bruce Bera")] }

/-- V5 response when the search reported failure (`part_000` lines
3757–3761); unreachable for the V5 search wrapper but present in the code. -/
def songNotFoundBodyV5 (q : String) : ResponseBody :=
  { type := "song_not_found"
    message := "I couldn" ++ apoS ++ "t find \"" ++ q ++
      "\" on YouTube. Please try a different song or provide a YouTube URL."
    extra := [("creator", "Bruce Bera")] }

/-- V5 clarification response when song extraction found nothing
(`part_000` lines 3763–3774). -/
def unclearBodyV5 : ResponseBody :=
  { type := "song_request_unclear"
    message := "Please specify which song you want to download. Example: \"Download Gleeish Place by King Von\""
    extra := [("examples",
               "Download Gleeish Place by King Von; Get me the song Blinding Lights by The Weeknd; Download As It Was by Harry Styles as MP3"),
              ("creator", "Bruce Bera")] }

/-- V5 response for a video download with a URL (`part_000` lines 3782–3789). -/
def videoDlBodyV5 (u : String) (isMP4 : Bool) : ResponseBody :=
  { type := "video_download"
    message := "I can download that YouTube " ++
      (if isMP4 then "video as MP4" else "audio as MP3") ++ "."
    extra := [("url", u), ("format", if isMP4 then "MP4" else "MP3"),
              ("endpoint", if isMP4 then "/api/download/youtube-mp4"
                           else "/api/download/youtube-mp3"),
              ("creator", "Bruce Bera")] }

/-- V5 clarification for a video download without a URL
(`part_000` lines 3791–3796). -/
def videoDlHelpBodyV5 : ResponseBody :=
  { type := "video_download_help"
    message := "Send me a YouTube URL to download as MP3 or MP4."
    extra := [("example", "Download https://youtube.com/watch?v=... as MP3"),
              ("creator", "Bruce Bera")] }

/-- V5 music-recognition response (`part_000` lines 3801–3808). -/
def recogBodyV5 : ResponseBody :=
  { type := "music_recognition"
    message := "Record or upload an audio sample and I will identify the song for you."
    extra := [("endpoint", "/api/music/identify"), ("max_size", "10MB"),
              ("formats", "mp3, wav, m4a, webm"), ("creator", "Bruce Bera")] }

/-- V5 voice-message acknowledgement (`part_000` lines 3812–3816). -/
def voiceMsgBodyV5 : ResponseBody :=
  { type := "voice_message_response"
    message := "I received your voice message! How can I help you today?"
    extra := [("creator", "Bruce Bera")] }

/-- V5 music-generation response (`part_000` lines 3825–3836). -/
def musicGenBodyV5 (rnd : RandSrc) : ResponseBody :=
  { type := "music_generation"
    message := "I" ++ apoS ++ "ll create a " ++ pick moodsList rnd.m ++ " " ++
      pick genresList rnd.g ++ " track for you. This will be an original composition."
    extra := [("genre", pick genresList rnd.g), ("mood", pick moodsList rnd.m),
              ("tempo", toString (rnd.t % 60 + 80) ++ " BPM"),
              ("structure", "Intro - Verse - Chorus - Bridge - Outro"),
              ("creator", "Bruce Bera")] }

/-- V5 help response (`part_000` lines 3840–3852). -/
def helpBodyV5 : ResponseBody :=
  { type := "help"
    message := "I am Bera AI, created by Bruce Bera. I can help with:"
    extra := [("capabilities",
               "Download songs by name, Identify songs from audio recordings (Shazam-style), Download YouTube videos by URL, AI Conversations, Music Generation, Voice Messages"),
              ("creator", "Bruce Bera")] }

/-- The `/api/bera-ai` orchestrator of the V5 variant (`part_000` lines
3696–3892): an `if/else-if` chain over the classified intent, followed by the
optional voice attachment.  The audio-transcription path (`audio_data`) is
outside the claims and is not modelled; `msg?` is the final message text. -/
def endpointV5 (msg? : Option String) (sO : SearchOutcomeV5)
    (chatO : Option String) (voiceO : Option (String × String))
    (voiceEnabled : Bool) (rnd : RandSrc) : PipeOut :=
  match msg? with
  | none => .err "Message is required"
  | some msg =>
    if msg.isEmpty then .err "Message is required"
    else
      let intent := classifyV5 msg
      let bc : ResponseBody × List Capability :=
        if intent = "identity" then (identityBodyShort, [])
        else if intent = "song_download" then
          if truthy (extractSongRequestV5 msg) then
            let q := (extractSongRequestV5 msg).getD ""
            let sr := searchSongV5 q sO
            if sr.success then (songFoundBodyV5 sr, [Capability.search])
            else (songNotFoundBodyV5 q, [Capability.search])
          else (unclearBodyV5, [])
        else if intent = "video_download" then
          ((match extractUrl msg with
            | some u => videoDlBodyV5 u (containsSub (lowerStr msg) "mp4")
            | none => videoDlHelpBodyV5), [])
        else if intent = "music_recognition" then (recogBodyV5, [])
        else if intent = "voice_message" then (voiceMsgBodyV5, [])
        else if intent = "music_generation" then (musicGenBodyV5 rnd, [])
        else if intent = "help" then (helpBodyV5, [])
        else (aiBody chatO, [Capability.chat])
      if voiceEnabled then .ok (attachVoice bc.1 voiceO) (bc.2 ++ [Capability.tts])
      else .ok bc.1 bc.2

/-! ## Outbound-call timeout configuration (all variants)

Every `axios` call made by a service wrapper, with the `timeout` option of its
request configuration (`none` when the configuration has no `timeout` key).
`serverA`/`serverB` are the two `server.js` variants in file order, `v1`–`v5`
the five `part_000` variants in file order. -/

/-- One outbound HTTP call of a capability client and its configured timeout
in milliseconds. -/
structure OutboundCall where
  service : String
  variant : String
  timeoutMs : Option Nat
deriving DecidableEq

/-- All outbound capability-client calls in the repository. -/
def outboundCalls : List OutboundCall :=
  [ ⟨"GiftedAIService.getAIResponse", "serverA", some 30000⟩,
    ⟨"ElevenLabsService.generateSpeech", "serverA", some 30000⟩,
    ⟨"MusicRecognitionService.identifySong", "serverA", some 15000⟩,
    ⟨"YouTubeDownloadService.downloadMP3", "serverA", some 30000⟩,
    ⟨"YouTubeDownloadService.downloadMP4", "serverA", some 30000⟩,
    ⟨"YouTubeDownloadService.directMP3", "serverA", some 30000⟩,
    ⟨"OpenAIService.enhanceResponse", "serverB", some 10000⟩,
    ⟨"DownloadOrchestrator.processYouTubeMP3", "serverB", some 30000⟩,
    ⟨"DownloadOrchestrator.processYouTubeMP4", "serverB", some 30000⟩,
    ⟨"MusicRecognitionService.identifySong", "serverB", some 15000⟩,
    ⟨"VoiceService.generateSpeech", "serverB", some 30000⟩,
    ⟨"GiftedAIService.enhanceResponse", "v1", some 30000⟩,
    ⟨"DownloadOrchestrator.processYouTubeMP3", "v1", some 30000⟩,
    ⟨"DownloadOrchestrator.processYouTubeMP4", "v1", some 30000⟩,
    ⟨"DownloadOrchestrator.processDirectMP3", "v1", some 30000⟩,
    ⟨"MusicRecognitionService.identifySong", "v1", some 15000⟩,
    ⟨"VoiceService.generateSpeech", "v1", some 30000⟩,
    ⟨"GiftedAIService.getAIResponse", "v2", some 30000⟩,
    ⟨"YouTubeSearchService.searchSong", "v2", some 15000⟩,
    ⟨"YouTubeDownloadService.downloadMP3", "v2", some 60000⟩,
    ⟨"YouTubeDownloadService.downloadMP4", "v2", some 60000⟩,
    ⟨"OpenAIService.enhanceResponse", "v3", some 10000⟩,
    ⟨"DownloadOrchestrator.processYouTubeMP3", "v3", some 30000⟩,
    ⟨"DownloadOrchestrator.processYouTubeMP4", "v3", some 30000⟩,
    ⟨"DownloadOrchestrator.processDirectMP3", "v3", some 30000⟩,
    ⟨"MusicRecognitionService.identifySong", "v3", some 10000⟩,
    ⟨"VoiceService.generateSpeech", "v3", none⟩,
    ⟨"OpenAIService.enhanceResponse", "v4", some 15000⟩,
    ⟨"DownloadOrchestrator.processYouTubeMP3", "v4", some 30000⟩,
    ⟨"DownloadOrchestrator.processYouTubeMP4", "v4", some 30000⟩,
    ⟨"DownloadOrchestrator.processDirectMP3", "v4", some 30000⟩,
    ⟨"MusicRecognitionService.identifySong", "v4", some 15000⟩,
    ⟨"VoiceService.generateSpeech", "v4", some 30000⟩,
    ⟨"GiftedAIService.getAIResponse", "v5", some 30000⟩,
    ⟨"YouTubeSearchService.searchSong", "v5", some 30000⟩,
    ⟨"YouTubeDownloadService.downloadMP3", "v5", some 60000⟩,
    ⟨"YouTubeDownloadService.downloadMP4", "v5", some 60000⟩,
    ⟨"ElevenLabsService.generateSpeech", "v5", some 30000⟩,
    ⟨"MusicRecognitionService.identifySong", "v5", some 20000⟩ ]

/-- The text-to-speech call of the OpenAI variant (`part_000` lines
1806–1844), whose `axios` configuration has no `timeout` key. -/
def v3VoiceCall : OutboundCall := ⟨"VoiceService.generateSpeech", "v3", none⟩

/-! ## Capability-client return shapes

What a client returns to its caller, as one of three JavaScript value
shapes: `null`, a bare string, or an object with a boolean `success` flag
(the uniform capability-result shape). -/

/-- The value shape a capability client hands back to its caller. -/
inductive ClientReturn where
  | nullRet
  | bareString (s : String)
  | uniform (success : Bool) (fields : List (String × String))
deriving DecidableEq

/-- Whether a returned value has the uniform capability-result shape. -/
def isUniformResult : ClientReturn → Bool
  | .uniform _ _ => true
  | _ => false

/-- Outcome of the remote call inside `GiftedAIService.getAIResponse`
(`server.js` lines 33–64): HTTP error (caught), a response with falsy
`data`, or a response whose text was extracted (from a bare string or one of
`result` / `response` / `message` / stringified JSON). -/
inductive ChatOutcome where
  | httpError
  | dataEmpty
  | dataText (s : String)
deriving DecidableEq

/-- `GiftedAIService.getAIResponse` (`server.js` lines 33–64): returns the
extracted text on success and `null` on error or empty data — a bare value,
not the uniform result shape. -/
def getAIResponse : ChatOutcome → ClientReturn
  | .httpError => .nullRet
  | .dataEmpty => .nullRet
  | .dataText s => .bareString s

/-- Outcome of the remote call inside the V1 `VoiceService.generateSpeech`
(`part_000` lines 269–313): missing/placeholder API key, HTTP error
(caught), or audio received. -/
inductive VoiceOutcome where
  | notConfigured
  | httpError
  | okAudio (audioB64 : String)
deriving DecidableEq

/-- `VoiceService.generateSpeech` of the V1 variant (`part_000` lines
269–313): every outcome is converted into the uniform success-flag shape. -/
def generateSpeechV1 : VoiceOutcome → ClientReturn
  | .notConfigured => .uniform false [("error", "Voice service not configured")]
  | .httpError => .uniform false [("error", "Voice service temporarily unavailable")]
  | .okAudio a =>
    .uniform true [("audio", a), ("format", "audio/mpeg"), ("voiceModel", "ElevenLabs")]

/-! ## Helper lemmas -/

/-- `containsTok` is exactly infix occurrence. -/
theorem containsTok_iff_occurs (pat : List Char) :
    ∀ l : List Char, containsTok pat l = true ↔ pat <:+: l := by
  intro l
  induction l with
  | nil =>
    simp [containsTok, List.isPrefixOf_iff_prefix]
  | cons c rest ih =>
    simp [containsTok, Bool.or_eq_true, List.isPrefixOf_iff_prefix, ih,
      List.infix_cons_iff]

/-- With an always-true continuation, a top-level token scan succeeds iff
some token of the group occurs in the input (tokens assumed nonempty, as all
source tokens are). -/
theorem scanTok_const_true (g : List String) (hg : ∀ t ∈ g, t.toList ≠ [])
    (k : List Char → Bool) (hk : ∀ x, k x = true) :
    ∀ l : List Char,
      (scanTok g k true l = true ↔ ∃ t ∈ g, containsTok t.toList l = true) := by
  intro l
  induction l with
  | nil =>
    simp only [scanTok]
    constructor
    · intro h; exact absurd h (by simp)
    · rintro ⟨t, htg, hc⟩
      rw [containsTok_iff_occurs] at hc
      exact absurd (List.infix_nil.mp hc) (hg t htg)
  | cons c rest ih =>
    simp only [scanTok, hk, Bool.and_true, Bool.true_or, Bool.true_and,
      Bool.or_eq_true, List.any_eq_true, ih]
    constructor
    · rintro (⟨t, htg, hp⟩ | ⟨t, htg, hc⟩)
      · exact ⟨t, htg, by
          rw [containsTok_iff_occurs]
          exact (List.isPrefixOf_iff_prefix.mp hp).isInfix⟩
      · exact ⟨t, htg, by
          rw [containsTok_iff_occurs] at hc ⊢
          exact List.infix_cons hc⟩
    · rintro ⟨t, htg, hc⟩
      rw [containsTok_iff_occurs, List.infix_cons_iff] at hc
      rcases hc with hp | hin
      · exact Or.inl ⟨t, htg, List.isPrefixOf_iff_prefix.mpr hp⟩
      · exact Or.inr ⟨t, htg, (containsTok_iff_occurs _ _).mpr hin⟩

/-- A single-group regex test is plain substring containment of one of the
group's tokens. -/
theorem altsTest_single (g : List String) (hg : ∀ t ∈ g, t.toList ≠ [])
    (l : List Char) :
    altsTest [[g]] l = true ↔ ∃ t ∈ g, containsTok t.toList l = true := by
  have hk : ∀ x : List Char, seqTail [] x = true := by intro x; simp [seqTail]
  simp only [altsTest, List.any_cons, List.any_nil, Bool.or_false, seqHead]
  exact scanTok_const_true g hg _ hk l

/-- The V2/V5 search wrapper reports success on every outcome except the V2
outer-catch path; the V5 wrapper reports success on every outcome. -/
theorem searchSongV5_success (q : String) (o : SearchOutcomeV5) :
    (searchSongV5 q o).success = true := by
  cases o <;> rfl

/-- `pick` always chooses an element of a nonempty list. -/
theorem pick_mem (l : List String) (r : Nat) (h : l ≠ []) : pick l r ∈ l := by
  unfold pick
  have hlen : 0 < l.length := List.length_pos.mpr h
  have hlt : r % l.length < l.length := Nat.mod_lt _ hlen
  rw [List.getD_eq_getElem l _ hlt]
  exact List.getElem_mem hlt

/-- Voice attachment never changes the `type` field. -/
theorem attachVoice_type (r : ResponseBody) (v : Option (String × String)) :
    (attachVoice r v).type = r.type := by
  cases v <;> rfl

/-- Voice attachment never changes the `message` field. -/
theorem attachVoice_message (r : ResponseBody) (v : Option (String × String)) :
    (attachVoice r v).message = r.message := by
  cases v <;> rfl

/-- Voice attachment never changes the intent-specific fields. -/
theorem attachVoice_extra (r : ResponseBody) (v : Option (String × String)) :
    (attachVoice r v).extra = r.extra := by
  cases v <;> rfl

/-- A failed voice synthesis adds nothing at all. -/
theorem attachVoice_none (r : ResponseBody) : attachVoice r none = r := rfl

/-- The intent-specific fields of the composed body. -/
def PipeOut.bodyExtra : PipeOut → List (String × String)
  | .err _ => []
  | .ok b _ => b.extra

/-! ## Claims -/

/-- C1 (counterexample): the spec's example text
"who created you, can you also download this song" matches no identity
pattern — neither the V1 guard nor the `server.js` inline identity rule —
so the pipeline does not short-circuit on it: the `server.js` classifier
sends it to `general`, and the V1 orchestrator composes a
general-conversation response and invokes the chat-completion client. -/
theorem c1_counterexample :
    checkIdentityQuestions "who created you, can you also download this song" = false ∧
    identityTestA "who created you, can you also download this song" = false ∧
    classifyServerA "who created you, can you also download this song" = "general" ∧
    (endpointV1 (some "who created you, can you also download this song")
        none none false ⟨0, 0, 0, 0⟩).bodyType = "general_conversation" ∧
    Capability.chat ∈ (endpointV1 (some "who created you, can you also download this song")
        none none false ⟨0, 0, 0, 0⟩).calledList := by
  refine ⟨by decide, by decide, by decide, by decide, by decide⟩

/-- C1 (amended): for every message matching one of the V1 identity
patterns, the orchestrator short-circuits before intent classification and
returns the fixed identity/ownership message regardless of any other
capability keywords present; no capability client beyond optional
text-to-speech is invoked. -/
theorem c1_identity_guard_short_circuits (msg : String) (chatO : Option String)
    (voiceO : Option (String × String)) (ve : Bool) (rnd : RandSrc)
    (hne : msg.isEmpty = false) (hid : checkIdentityQuestions msg = true) :
    (endpointV1 (some msg) chatO voiceO ve rnd).bodyType = "identity_response" ∧
    (endpointV1 (some msg) chatO voiceO ve rnd).bodyMessage = identityMsgV1 ∧
    (endpointV1 (some msg) chatO voiceO ve rnd).isOk = true ∧
    ∀ c ∈ (endpointV1 (some msg) chatO voiceO ve rnd).calledList,
      c = Capability.tts := by
  unfold endpointV1
  simp only [hne, hid, Bool.false_eq_true, if_false, if_true]
  cases ve <;>
    simp [PipeOut.bodyType, PipeOut.bodyMessage, PipeOut.isOk, PipeOut.calledList,
      attachVoice_type, attachVoice_message, identityBodyV1]

/-- C1 (witness): a concrete identity question that also contains download
keywords short-circuits to the identity response. -/
theorem c1_identity_guard_short_circuits_witness :
    (endpointV1 (some "who made you, can you also download this song")
        none none false ⟨0, 0, 0, 0⟩).bodyType = "identity_response" :=
  (c1_identity_guard_short_circuits "who made you, can you also download this song"
    none none false ⟨0, 0, 0, 0⟩ (by decide) (by decide)).1

/-- C2 (counterexample): a whitespace-only message is NOT rejected by the
`!message` guard ("` `" is truthy in JavaScript): it reaches the classifier,
is treated as general conversation, and the chat-completion client is
invoked. -/
theorem c2_counterexample :
    (" " : String).isEmpty = false ∧
    (endpointV1 (some " ") none none false ⟨0, 0, 0, 0⟩).isOk = true ∧
    (endpointV1 (some " ") none none false ⟨0, 0, 0, 0⟩).bodyType =
      "general_conversation" ∧
    Capability.chat ∈ (endpointV1 (some " ") none none false ⟨0, 0, 0, 0⟩).calledList := by
  refine ⟨by decide, by decide, by decide, by decide⟩

/-- C2 (amended): for every absent or empty-string message the orchestrator
returns the fixed "Message is required" input error before any
classification, and no capability client is invoked (the error constructor
carries no capability calls); whitespace-only nonempty messages pass the
guard (see the counterexample). -/
theorem c2_empty_message_rejected :
    (∀ (chatO : Option String) (voiceO : Option (String × String)) (ve : Bool)
        (rnd : RandSrc),
      endpointV1 none chatO voiceO ve rnd = .err "Message is required" ∧
      (endpointV1 none chatO voiceO ve rnd).calledList = []) ∧
    (∀ (chatO : Option String) (voiceO : Option (String × String)) (ve : Bool)
        (rnd : RandSrc),
      endpointV1 (some "") chatO voiceO ve rnd = .err "Message is required" ∧
      (endpointV1 (some "") chatO voiceO ve rnd).calledList = []) := by
  constructor <;> intro chatO voiceO ve rnd <;> exact ⟨by rfl, by rfl⟩

/-- C3 (counterexample): in the auto-download variant, "download song" is
classified `song_download` and its extraction yields nothing, yet the
orchestrator does NOT return a clarification: the unmatched branch falls
through to general conversation and the chat-completion client is invoked. -/
theorem c3_counterexample :
    classifyV2 "download song" = "song_download" ∧
    extractSongRequestV2 "download song" = none ∧
    (endpointV2 (some "download song") .fallback ⟨true, ""⟩ none).bodyType =
      "ai_response" ∧
    Capability.chat ∈
      (endpointV2 (some "download song") .fallback ⟨true, ""⟩ none).calledList := by
  refine ⟨by decide, by decide, by decide, by decide⟩

/-- C3 (amended): in the pattern-extraction variant a `song_download` message
whose extraction is null/empty yields the `song_request_unclear` clarification
and no capability client beyond optional text-to-speech; in the auto-download
variant such a message instead falls through to general conversation and
invokes the chat-completion client.  Neither variant surfaces the extraction
failure as an error (both return a success envelope). -/
theorem c3_extraction_failure_behavior :
    (∀ (msg : String) (sO : SearchOutcomeV5) (chatO : Option String)
        (voiceO : Option (String × String)) (ve : Bool) (rnd : RandSrc),
      msg.isEmpty = false →
      classifyV5 msg = "song_download" →
      truthy (extractSongRequestV5 msg) = false →
      (endpointV5 (some msg) sO chatO voiceO ve rnd).bodyType =
        "song_request_unclear" ∧
      (endpointV5 (some msg) sO chatO voiceO ve rnd).isOk = true ∧
      ∀ c ∈ (endpointV5 (some msg) sO chatO voiceO ve rnd).calledList,
        c = Capability.tts) ∧
    (∀ (msg : String) (sO : SearchOutcomeV2) (dl : DlResult)
        (chatO : Option String),
      msg.isEmpty = false →
      classifyV2 msg = "song_download" →
      truthy (extractSongRequestV2 msg) = false →
      (endpointV2 (some msg) sO dl chatO).bodyType = "ai_response" ∧
      (endpointV2 (some msg) sO dl chatO).isOk = true ∧
      (endpointV2 (some msg) sO dl chatO).calledList = [Capability.chat]) := by
  constructor
  · intro msg sO chatO voiceO ve rnd hne hcl hex
    unfold endpointV5
    simp only [hne, Bool.false_eq_true, if_false, hcl, hex]
    cases ve <;>
      simp [PipeOut.bodyType, PipeOut.isOk, PipeOut.calledList,
        attachVoice_type, unclearBodyV5]
  · intro msg sO dl chatO hne hcl hex
    unfold endpointV2
    simp only [hne, Bool.false_eq_true, if_false, hcl, hex]
    simp [endGeneralV2, PipeOut.bodyType, PipeOut.isOk, PipeOut.calledList, aiBody]

/-- C3 (witness): concrete extraction failures in both variants. -/
theorem c3_extraction_failure_behavior_witness :
    (endpointV5 (some "fetch me some music") .noVideos none none false
        ⟨0, 0, 0, 0⟩).bodyType = "song_request_unclear" ∧
    (endpointV2 (some "download song") .fallback ⟨true, ""⟩ none).bodyType =
      "ai_response" :=
  ⟨(c3_extraction_failure_behavior.1 "fetch me some music" .noVideos none none
      false ⟨0, 0, 0, 0⟩ (by decide) (by decide) (by decide)).1,
   (c3_extraction_failure_behavior.2 "download song" .fallback ⟨true, ""⟩ none
      (by decide) (by decide) (by decide)).1⟩

/-- C4: whenever the V1 general-conversation branch runs and the chat client
failed (returned `null`), the composed message is one of the three fixed
fallback sentences and the envelope still reports overall success. -/
theorem c4_chat_failure_fallback (msg : String)
    (voiceO : Option (String × String)) (ve : Bool) (rnd : RandSrc)
    (hne : msg.isEmpty = false)
    (hid : checkIdentityQuestions msg = false)
    (hcl : classifyV1 msg = "general_conversation") :
    (endpointV1 (some msg) none voiceO ve rnd).isOk = true ∧
    (endpointV1 (some msg) none voiceO ve rnd).bodyType =
      "general_conversation" ∧
    (endpointV1 (some msg) none voiceO ve rnd).bodyMessage ∈
      generalResponsesV1 := by
  unfold endpointV1
  simp only [hne, hid, Bool.false_eq_true, if_false, hcl]
  have hmem : pick generalResponsesV1 rnd.f ∈ generalResponsesV1 :=
    pick_mem _ _ (by simp [generalResponsesV1])
  cases ve <;>
    simp [PipeOut.bodyType, PipeOut.isOk, PipeOut.bodyMessage,
      attachVoice_type, attachVoice_message, generalBodyV1, hmem]

/-- C4 (witness): a plain conversational message with a failed chat client
gets a fallback sentence in a success envelope. -/
theorem c4_chat_failure_fallback_witness :
    (endpointV1 (some "hello there") none none false ⟨0, 0, 0, 0⟩).bodyMessage ∈
      generalResponsesV1 :=
  (c4_chat_failure_fallback "hello there" none false ⟨0, 0, 0, 0⟩
    (by decide) (by decide) (by decide)).2.2

/-- C5: voice attachment is a pure frame extension.  A failed synthesis adds
nothing at all; a successful one adds only the voice fields; `type`,
`message` and every other field are untouched.  At the request level, a
voice-enabled request whose synthesis fails produces exactly the same body
and the same success envelope as the no-voice request. -/
theorem c5_voice_attachment_frame :
    (∀ r : ResponseBody, attachVoice r none = r) ∧
    (∀ (r : ResponseBody) (a f : String),
      (attachVoice r (some (a, f))).type = r.type ∧
      (attachVoice r (some (a, f))).message = r.message ∧
      (attachVoice r (some (a, f))).extra = r.extra ∧
      (attachVoice r (some (a, f))).voiceFields = some (a, f)) ∧
    (∀ (msg : String) (chatO : Option String) (rnd : RandSrc),
      (endpointV1 (some msg) chatO none true rnd).bodyOut =
        (endpointV1 (some msg) chatO none false rnd).bodyOut ∧
      (endpointV1 (some msg) chatO none true rnd).isOk =
        (endpointV1 (some msg) chatO none false rnd).isOk) := by
  refine ⟨fun r => rfl, fun r a f => ⟨rfl, rfl, rfl, rfl⟩, ?_⟩
  intro msg chatO rnd
  unfold endpointV1
  by_cases h : msg.isEmpty = true <;>
    simp [h, attachVoice_none, PipeOut.bodyOut, PipeOut.isOk]

/-- C6 (counterexample): not every outbound capability call has a timeout in
the 15–60 s range.  The OpenAI-variant text-to-speech call has no timeout at
all, and that variant's OpenAI chat call uses 10 s, below the claimed range. -/
theorem c6_counterexample :
    v3VoiceCall ∈ outboundCalls ∧ v3VoiceCall.timeoutMs = none ∧
    (⟨"OpenAIService.enhanceResponse", "v3", some 10000⟩ : OutboundCall) ∈
      outboundCalls ∧
    ¬ (∀ c ∈ outboundCalls, ∃ t, c.timeoutMs = some t ∧
        15000 ≤ t ∧ t ≤ 60000) := by
  refine ⟨by decide, by decide, by decide, fun h => ?_⟩
  obtain ⟨t, ht, -, -⟩ := h v3VoiceCall (by decide)
  simp [v3VoiceCall] at ht

/-- C6 (amended): every outbound capability call except the OpenAI-variant
text-to-speech call is configured with a bounded timeout, and every
configured timeout lies between 10 and 60 seconds. -/
theorem c6_timeouts_bounded (c : OutboundCall) (hc : c ∈ outboundCalls) :
    (c = v3VoiceCall ∧ c.timeoutMs = none) ∨
    (c.timeoutMs ≠ none ∧ 10000 ≤ c.timeoutMs.getD 0 ∧
      c.timeoutMs.getD 0 ≤ 60000) := by
  fin_cases hc <;> decide

/-- C6 (witness): the bound instantiated at a concrete configured call. -/
theorem c6_timeouts_bounded_witness :
    (⟨"GiftedAIService.getAIResponse", "serverA", some 30000⟩ : OutboundCall) =
      v3VoiceCall ∧
      (⟨"GiftedAIService.getAIResponse", "serverA",
        some 30000⟩ : OutboundCall).timeoutMs = none ∨
    ((⟨"GiftedAIService.getAIResponse", "serverA",
        some 30000⟩ : OutboundCall).timeoutMs ≠ none ∧
      10000 ≤ ((⟨"GiftedAIService.getAIResponse", "serverA",
        some 30000⟩ : OutboundCall).timeoutMs.getD 0) ∧
      ((⟨"GiftedAIService.getAIResponse", "serverA",
        some 30000⟩ : OutboundCall).timeoutMs.getD 0) ≤ 60000) :=
  c6_timeouts_bounded _ (by decide)

/-- C7 (counterexample): the chat-completion client does NOT normalize every
outcome into the uniform success-flag result shape — on a failed remote call
it returns a bare `null`, and on success a bare string. -/
theorem c7_counterexample :
    isUniformResult (getAIResponse .httpError) = false ∧
    getAIResponse .httpError = .nullRet ∧
    getAIResponse (.dataText "hi") = .bareString "hi" ∧
    isUniformResult (getAIResponse (.dataText "hi")) = false := by
  refine ⟨by decide, by decide, by decide, by decide⟩

/-- C7 (amended): every client catches its errors internally (modelled as
total outcome functions); the text-to-speech client converts every outcome
into the uniform success-flag shape, while the chat-completion client
returns `null` on any failure and the bare reply string on success. -/
theorem c7_result_shapes :
    (∀ o : VoiceOutcome, isUniformResult (generateSpeechV1 o) = true) ∧
    (∀ o : ChatOutcome,
      getAIResponse o = .nullRet ∨ ∃ s, getAIResponse o = .bareString s) := by
  constructor
  · intro o; cases o <;> rfl
  · intro o
    cases o with
    | httpError => exact Or.inl rfl
    | dataEmpty => exact Or.inl rfl
    | dataText s => exact Or.inr ⟨s, rfl⟩

/-- C8: the format extractor returns "MP4" exactly when the lower-cased text
contains one of the explicit video tokens (`mp4`, `video`, `visual`) and none
of the audio tokens (`mp3`, `audio`); every other text gets "MP3"; and
re-running it on the same text trivially yields the same format (it is a
pure function). -/
theorem c8_download_format (text : String) :
    (getDownloadFormat text = "MP4" ↔
      ((containsSub (lowerStr text) "mp4" = true ∨
        containsSub (lowerStr text) "video" = true ∨
        containsSub (lowerStr text) "visual" = true) ∧
       containsSub (lowerStr text) "mp3" = false ∧
       containsSub (lowerStr text) "audio" = false)) ∧
    (getDownloadFormat text = "MP4" ∨ getDownloadFormat text = "MP3") ∧
    getDownloadFormat text = getDownloadFormat text := by
  have hA := altsTest_single ["mp4", "video", "visual"] (by decide)
    (lowerStr text).toList
  have hB := altsTest_single ["mp3", "audio"] (by decide) (lowerStr text).toList
  simp only [List.mem_cons, List.not_mem_nil, exists_eq_or_imp, exists_eq_left,
    or_false, List.mem_singleton] at hA hB
  have hfmt : getDownloadFormat text =
      if (altsTest [[["mp4", "video", "visual"]]] (lowerStr text).toList &&
          !altsTest [[["mp3", "audio"]]] (lowerStr text).toList) then "MP4"
      else "MP3" := rfl
  refine ⟨?_, ?_, rfl⟩
  · constructor
    · intro h
      rw [hfmt] at h
      by_cases hab : (altsTest [[["mp4", "video", "visual"]]] (lowerStr text).toList &&
          !altsTest [[["mp3", "audio"]]] (lowerStr text).toList) = true
      · rw [Bool.and_eq_true, Bool.not_eq_true'] at hab
        obtain ⟨ha, hb⟩ := hab
        refine ⟨?_, ?_, ?_⟩
        · simpa [containsSub] using hA.mp ha
        · by_contra hc
          rw [Bool.not_eq_false] at hc
          have : altsTest [[["mp3", "audio"]]] (lowerStr text).toList = true :=
            hB.mpr (Or.inl (by simpa [containsSub] using hc))
          rw [this] at hb
          exact Bool.true_eq_false.mp hb
        · by_contra hc
          rw [Bool.not_eq_false] at hc
          have : altsTest [[["mp3", "audio"]]] (lowerStr text).toList = true :=
            hB.mpr (Or.inr (by simpa [containsSub] using hc))
          rw [this] at hb
          exact Bool.true_eq_false.mp hb
      · rw [Bool.not_eq_true] at hab
        rw [hab] at h
        simp at h
    · rintro ⟨hdisj, h3, haud⟩
      rw [hfmt]
      have ha : altsTest [[["mp4", "video", "visual"]]] (lowerStr text).toList = true :=
        hA.mpr (by simpa [containsSub] using hdisj)
      have hb : altsTest [[["mp3", "audio"]]] (lowerStr text).toList = false := by
        by_contra hc
        rw [Bool.not_eq_false] at hc
        rcases hB.mp hc with h | h
        · rw [show containsTok "mp3".toList (lowerStr text).toList =
              containsSub (lowerStr text) "mp3" from rfl, h3] at h
          exact Bool.false_eq_true.mp h
        · rw [show containsTok "audio".toList (lowerStr text).toList =
              containsSub (lowerStr text) "audio" from rfl, haud] at h
          exact Bool.false_eq_true.mp h
      rw [ha, hb]
      rfl
  · rw [hfmt]
    by_cases hab : (altsTest [[["mp4", "video", "visual"]]] (lowerStr text).toList &&
        !altsTest [[["mp3", "audio"]]] (lowerStr text).toList) = true
    · rw [hab]; left; rfl
    · rw [Bool.not_eq_true] at hab
      rw [hab]; right; rfl

/-- C8 (witness): the characterization instantiated at concrete inputs. -/
theorem c8_download_format_witness :
    getDownloadFormat "save me a video" = "MP4" ∧
    getDownloadFormat "download audio mp4" = "MP3" :=
  ⟨(c8_download_format "save me a video").1.mpr
      ⟨Or.inr (Or.inl (by decide)), by decide, by decide⟩,
   by
    rcases (c8_download_format "download audio mp4").2.1 with h | h
    · exact absurd ((c8_download_format "download audio mp4").1.mp h)
        (by decide)
    · exact h⟩

/-- C9: the scenario "Download Shape of You by Ed Sheeran": both the
auto-download and pattern-extraction classifiers yield `song_download`; both
extractors produce exactly "Shape of You by Ed Sheeran"; the format defaults
to MP3; the V5 response has the song-download-class type `song_found` for
every search outcome; and the V2 response (search hit, download success) has
the song-download-class type `auto_download` with format MP3. -/
theorem c9_scenario_shape_of_you :
    classifyV2 "Download Shape of You by Ed Sheeran" = "song_download" ∧
    classifyV5 "Download Shape of You by Ed Sheeran" = "song_download" ∧
    extractSongRequestV2 "Download Shape of You by Ed Sheeran" =
      some "Shape of You by Ed Sheeran" ∧
    extractSongRequestV5 "Download Shape of You by Ed Sheeran" =
      some "Shape of You by Ed Sheeran" ∧
    getDownloadFormat "Download Shape of You by Ed Sheeran" = "MP3" ∧
    (∀ sO : SearchOutcomeV5,
      (endpointV5 (some "Download Shape of You by Ed Sheeran") sO none none
          false ⟨0, 0, 0, 0⟩).bodyType = "song_found") ∧
    (endpointV2 (some "Download Shape of You by Ed Sheeran")
        (.apiVideos "Shape of You" "JGwWNGJdvx8") ⟨true, ""⟩ none).bodyType =
      "auto_download" ∧
    ("format", "MP3") ∈ (endpointV2 (some "Download Shape of You by Ed Sheeran")
        (.apiVideos "Shape of You" "JGwWNGJdvx8") ⟨true, ""⟩ none).bodyExtra := by
  refine ⟨by decide, by decide, by decide, by decide, by decide, ?_, by decide,
    by decide⟩
  intro sO
  unfold endpointV5
  simp only [show ("Download Shape of You by Ed Sheeran" : String).isEmpty = false
      from by decide,
    show classifyV5 "Download Shape of You by Ed Sheeran" = "song_download"
      from by decide,
    show truthy (extractSongRequestV5 "Download Shape of You by Ed Sheeran") = true
      from by decide]
  simp [searchSongV5_success, songFoundBodyV5, PipeOut.bodyType]

/-- C10 (counterexample): "who made you anything" contains the substring
"yt" (inside "anything"), yet the `server.js` classifier returns `identity`,
not `download` — its identity rule runs before the download rule. -/
theorem c10_counterexample :
    containsSub (lowerStr "who made you anything") "yt" = true ∧
    classifyServerA "who made you anything" = "identity" :=
  ⟨by decide, by decide⟩

/-- C10 (amended): any string containing "yt" anywhere — including inside
ordinary words — is classified `media_download` by the `part_000` V1
classifier, whose download rule runs first and whose YouTube-host
alternation `(yt|youtu.be|youtube.com)` is unanchored; in the `server.js`
classifier the same holds whenever no identity pattern also matches (its
identity rule runs first). -/
theorem c10_yt_substring_download :
    (∀ s : String, containsSub (lowerStr s) "yt" = true →
      classifyV1 s = "media_download") ∧
    (∀ s : String, containsSub (lowerStr s) "yt" = true →
      identityTestA s = false → classifyServerA s = "download") := by
  have hyt : ∀ s : String, containsSub (lowerStr s) "yt" = true →
      altsTest [[["yt", "youtu.be", "youtube.com"]]] (lowerStr s).data = true := by
    intro s h
    exact (altsTest_single _ (by decide) _).mpr ⟨"yt", by simp, h⟩
  constructor
  · intro s h
    unfold classifyV1
    simp [hyt s h]
  · intro s h hid
    unfold classifyServerA
    simp [hyt s h, hid]

/-- C10 (witness): "anything about analytics" contains "yt" twice inside
ordinary words and is classified as a download in both variants. -/
theorem c10_yt_substring_download_witness :
    classifyV1 "anything about analytics" = "media_download" ∧
    classifyServerA "anything about analytics" = "download" :=
  ⟨c10_yt_substring_download.1 "anything about analytics" (by decide),
   c10_yt_substring_download.2 "anything about analytics" (by decide) (by decide)⟩
